import Mathlib

/-!
Verification of the PyInputPlus retry/timeout control loop
(`src/pyinputplus/__init__.py`, version 0.2.3, the copy packaged by
`setup.py`).  The core is `_genericInput` together with its helper
`_checkLimitAndTimeout`, plus the `inputInt` / `inputFloat` wrappers.

Modelling conventions:
* Wall-clock time is modelled by rationals.  Each loop iteration makes
  exactly one `time.time()` call after the read (inside
  `_checkLimitAndTimeout` on the failure path, or at the post-validation
  timeout check on the success path), so each simulated input line is
  paired with the clock value observed at that check.
* The console is modelled by a list of (line, clockValue) pairs; an empty
  list means the user never answers (the Python call would block in
  `input()` forever).
* Python exceptions raised by the pluggable hooks (`applyFunc`,
  `validationFunc`, `postValidateApplyFunc`) are modelled by `Except`:
  `Except.error msg` is a raised exception carrying message `msg`.
* Every `return` / `raise` site of `_genericInput` is mapped to its own
  `GIResult` constructor so that the provenance of the produced value
  (normal success vs. substituted default vs. give-up exception) is
  visible in the model.
* The dynamic `isinstance` checks at the top of `_genericInput` are
  modelled over runtime type tags (`PyTy`), since the Lean embedding is
  otherwise statically typed.
-/

namespace PyInputPlus

/-- Runtime type tags for the Python values handed to `_genericInput`,
used to model its `isinstance` parameter validation.  `pFunc`,
`pMethodDescriptor` and `pType` are the three callable categories the
source accepts (`FUNC_TYPE`, `METHOD_DESCRIPTOR_TYPE`, `type`);
`pOther` stands for any other runtime type. -/
inductive PyTy
  | pStr
  | pInt
  | pFloat
  | pNone
  | pFunc
  | pMethodDescriptor
  | pType
  | pOther
deriving DecidableEq, Repr

/-- The runtime types of the seven arguments passed to `_genericInput`. -/
structure ArgTypes where
  prompt : PyTy
  default : PyTy
  timeout : PyTy
  limit : PyTy
  validationFunc : PyTy
  applyFunc : PyTy
  postValidateApplyFunc : PyTy
deriving DecidableEq, Repr

/-- `isinstance(x, (FUNC_TYPE, METHOD_DESCRIPTOR_TYPE, type))`. -/
def isFuncLike : PyTy → Bool
  | PyTy.pFunc => true
  | PyTy.pMethodDescriptor => true
  | PyTy.pType => true
  | _ => false

/-- The parameter-validation prologue of `_genericInput` (lines 102-115):
returns the message of the `PyInputPlusException` raised by the first
failing `isinstance` check, or `none` when all checks pass. -/
def paramCheck (a : ArgTypes) : Option String :=
  if !(a.prompt == PyTy.pStr) then
    some "prompt argument must be a str"
  else if !(a.default == PyTy.pStr || a.default == PyTy.pNone) then
    some "default argument must be a str or None"
  else if !(a.timeout == PyTy.pInt || a.timeout == PyTy.pFloat || a.timeout == PyTy.pNone) then
    some "timeout argument must be an int or float"
  else if !(a.limit == PyTy.pInt || a.limit == PyTy.pNone) then
    some "limit argument must be an int"
  else if !(isFuncLike a.validationFunc) then
    some "validationFunc argument must be a function"
  else if !(isFuncLike a.applyFunc || a.applyFunc == PyTy.pNone) then
    some "applyFunc argument must be a function or None"
  else if !(isFuncLike a.postValidateApplyFunc || a.postValidateApplyFunc == PyTy.pNone) then
    some "postValidateApplyFunc argument must be a function or None"
  else
    none

/-- All seven `isinstance` checks pass. -/
def validArgTypes (a : ArgTypes) : Bool :=
  (a.prompt == PyTy.pStr)
    && (a.default == PyTy.pStr || a.default == PyTy.pNone)
    && (a.timeout == PyTy.pInt || a.timeout == PyTy.pFloat || a.timeout == PyTy.pNone)
    && (a.limit == PyTy.pInt || a.limit == PyTy.pNone)
    && isFuncLike a.validationFunc
    && (isFuncLike a.applyFunc || a.applyFunc == PyTy.pNone)
    && (isFuncLike a.postValidateApplyFunc || a.postValidateApplyFunc == PyTy.pNone)

/-- The two exception objects `_checkLimitAndTimeout` can return. -/
inductive GiveUpExc
  | timeoutExc
  | retryLimitExc
deriving DecidableEq, Repr

/-- `timeout is not None and startTime + timeout < time.time()`. -/
def timedOut (startTime : ℚ) (timeout : Option ℚ) (now : ℚ) : Bool :=
  match timeout with
  | none => false
  | some t => decide (startTime + t < now)

/-- `limit is not None and tries >= limit`. -/
def limitHit (tries : ℤ) (limit : Option ℤ) : Bool :=
  match limit with
  | none => false
  | some l => decide (l ≤ tries)

/-- `_checkLimitAndTimeout` (lines 54-72): returns a `TimeoutException`
if the timeout elapsed, else a `RetryLimitException` if the try limit is
reached, else `None`.  `now` is the value of the `time.time()` call it
makes. -/
def checkLimitAndTimeout (startTime : ℚ) (timeout : Option ℚ) (tries : ℤ)
    (limit : Option ℤ) (now : ℚ) : Option GiveUpExc :=
  if timedOut startTime timeout now then
    some GiveUpExc.timeoutExc
  else if limitHit tries limit then
    some GiveUpExc.retryLimitExc
  else
    none

/-- Console output events: the prompt written before each read, and the
validation-exception message printed after a failed attempt. -/
inductive OutEvent
  | promptEv (s : String)
  | messageEv (s : String)
deriving DecidableEq, Repr

/-- Outcome of one `_genericInput` call, one constructor per
return/raise site:
* `ok v`         — normal return of the validated (and possibly
                   post-transformed) value, lines 166-169;
* `defaulted d`  — `return default` on a give-up condition,
                   line 144 or line 160;
* `timeoutErr`   — `raise TimeoutException` (line 147 via the helper, or
                   line 162);
* `retryLimitErr`— `raise RetryLimitException` (line 147 via the helper);
* `uncaughtErr m`— an exception raised by `applyFunc` or
                   `postValidateApplyFunc`, which sits outside the
                   `try` block and so propagates to the caller;
* `configErr m`  — `PyInputPlusException` from the parameter checks;
* `blocked`      — the modelled input lines ran out: the Python call
                   would be blocked in `input()`. -/
inductive GIResult
  | ok (v : String)
  | defaulted (d : String)
  | timeoutErr
  | retryLimitErr
  | uncaughtErr (m : String)
  | configErr (m : String)
  | blocked
deriving DecidableEq, Repr

/-- The configuration of one `_genericInput` call.  `_genericInput`
always works on strings (any casting is done by the caller), so the
hooks are string functions; `Except.error` models a raised exception. -/
structure Config where
  prompt : String
  default : Option String
  timeout : Option ℚ
  limit : Option ℤ
  applyFunc : Option (String → Except String String)
  validationFunc : String → Except String String
  postValidateApplyFunc : Option (String → Except String String)

/-- `if applyFunc is not None: userInput = applyFunc(userInput)`. -/
def applyOpt (f : Option (String → Except String String)) (x : String) :
    Except String String :=
  match f with
  | none => Except.ok x
  | some g => g x

/-- The `while True:` loop of `_genericInput` (lines 120-169), recursing
on the remaining console input.  Returns the outcome, the console output
events in order, and the final value of `tries`. -/
def genericInputLoop (cfg : Config) (startTime : ℚ) :
    List (String × ℚ) → ℤ → GIResult × List OutEvent × ℤ
  | [], tries => (GIResult.blocked, [OutEvent.promptEv cfg.prompt], tries)
  | (rawLine, now) :: rest, tries =>
    match applyOpt cfg.applyFunc rawLine with
    | Except.error m =>
      (GIResult.uncaughtErr m, [OutEvent.promptEv cfg.prompt], tries + 1)
    | Except.ok preVal =>
      match cfg.validationFunc preVal with
      | Except.error excMsg =>
        match checkLimitAndTimeout startTime cfg.timeout (tries + 1) cfg.limit now with
        | some e =>
          match cfg.default with
          | some d =>
            (GIResult.defaulted d,
             [OutEvent.promptEv cfg.prompt, OutEvent.messageEv excMsg], tries + 1)
          | none =>
            ((match e with
              | GiveUpExc.timeoutExc => GIResult.timeoutErr
              | GiveUpExc.retryLimitExc => GIResult.retryLimitErr),
             [OutEvent.promptEv cfg.prompt, OutEvent.messageEv excMsg], tries + 1)
        | none =>
          ((genericInputLoop cfg startTime rest (tries + 1)).1,
           OutEvent.promptEv cfg.prompt :: OutEvent.messageEv excMsg ::
             (genericInputLoop cfg startTime rest (tries + 1)).2.1,
           (genericInputLoop cfg startTime rest (tries + 1)).2.2)
      | Except.ok canonical =>
        if timedOut startTime cfg.timeout now then
          match cfg.default with
          | some d => (GIResult.defaulted d, [OutEvent.promptEv cfg.prompt], tries + 1)
          | none => (GIResult.timeoutErr, [OutEvent.promptEv cfg.prompt], tries + 1)
        else
          match cfg.postValidateApplyFunc with
          | none => (GIResult.ok canonical, [OutEvent.promptEv cfg.prompt], tries + 1)
          | some f =>
            match f canonical with
            | Except.ok w => (GIResult.ok w, [OutEvent.promptEv cfg.prompt], tries + 1)
            | Except.error m =>
              (GIResult.uncaughtErr m, [OutEvent.promptEv cfg.prompt], tries + 1)

/-- `_genericInput` (lines 75-169): the parameter checks, then the loop
with `tries = 0`.  `argTys` carries the runtime types of the actual
arguments; `startTime` is the `time.time()` value recorded before the
first prompt. -/
def genericInput (argTys : ArgTypes) (cfg : Config) (startTime : ℚ)
    (inputs : List (String × ℚ)) : GIResult × List OutEvent × ℤ :=
  match paramCheck argTys with
  | some msg => (GIResult.configErr msg, [], 0)
  | none => genericInputLoop cfg startTime inputs 0

/-- Number of prompts written (one per read attempt). -/
def promptCount : List OutEvent → ℕ
  | [] => 0
  | OutEvent.promptEv _ :: tl => promptCount tl + 1
  | OutEvent.messageEv _ :: tl => promptCount tl

/-- Number of validation-failure messages written. -/
def messageCount : List OutEvent → ℕ
  | [] => 0
  | OutEvent.promptEv _ :: tl => messageCount tl
  | OutEvent.messageEv _ :: tl => messageCount tl + 1

/-- The value the success path of the loop produces from the validated
value `v` (lines 166-169): `postValidateApplyFunc(v)` when the
post-transform is set, else `v` itself; an exception from the
post-transform propagates. -/
def successResult (cfg : Config) (v : String) : GIResult :=
  match cfg.postValidateApplyFunc with
  | none => GIResult.ok v
  | some f =>
    match f v with
    | Except.ok w => GIResult.ok w
    | Except.error m => GIResult.uncaughtErr m

/-- The pre-transform succeeds and the validator rejects the line. -/
def attemptRejected (cfg : Config) (rawLine : String) : Prop :=
  ∃ preVal excMsg, applyOpt cfg.applyFunc rawLine = Except.ok preVal ∧
    cfg.validationFunc preVal = Except.error excMsg

/-- A validator that rejects the empty string, used to instantiate
concrete scenarios. -/
def rejectBlank : String → Except String String :=
  fun s => if s = "" then Except.error "Blank values are not allowed." else Except.ok s

/-- Python `int(x)` on a float value: truncation toward zero. -/
def pyIntOfRat (q : ℚ) : ℤ :=
  if 0 ≤ q then ⌊q⌋ else -⌊-q⌋

/-- A value returned by the numeric wrappers `inputInt` / `inputFloat`:
a Python int, a Python float, or the string left as-is when the numeric
coercion raised `ValueError` (a non-numeric default or allowlist
value). -/
inductive NumOrStr
  | intVal (n : ℤ)
  | floatVal (q : ℚ)
  | strVal (s : String)
deriving DecidableEq, Repr

/-- `int(float(result))` guarded by `except ValueError: pass`
(lines 347-351): `floatParse` models the Python `float` constructor on
strings, `none` meaning it raises `ValueError`. -/
def coerceInt (floatParse : String → Option ℚ) (s : String) : NumOrStr :=
  match floatParse s with
  | some q => NumOrStr.intVal (pyIntOfRat q)
  | none => NumOrStr.strVal s

/-- `float(result)` guarded by `except ValueError: pass`
(lines 397-401). -/
def coerceFloat (floatParse : String → Option ℚ) (s : String) : NumOrStr :=
  match floatParse s with
  | some q => NumOrStr.floatVal q
  | none => NumOrStr.strVal s

/-- `inputInt` (lines 268-356), parameterised over its external
collaborators: `floatParse` models Python `float(s)` and
`validationFunc` the `pysv.validateNum` closure.  The core loop is
called without a post-transform; the coercion `int(float(result))` is
attempted on whatever the loop returned — including a give-up default —
and `postValidateApplyFunc` is then applied unconditionally when set.
Returns `none` when the core loop does not return a value (give-up
exception, uncaught hook exception, or blocked read). -/
def inputInt (floatParse : String → Option ℚ)
    (validationFunc : String → Except String String)
    (prompt : String) (default : Option String) (timeout : Option ℚ)
    (limit : Option ℤ) (applyFunc : Option (String → Except String String))
    (postValidateApplyFunc : Option (NumOrStr → NumOrStr))
    (startTime : ℚ) (inputs : List (String × ℚ)) : Option NumOrStr :=
  match (genericInputLoop
      ⟨prompt, default, timeout, limit, applyFunc, validationFunc, none⟩
      startTime inputs 0).1 with
  | GIResult.ok s =>
    some (match postValidateApplyFunc with
          | none => coerceInt floatParse s
          | some f => f (coerceInt floatParse s))
  | GIResult.defaulted d =>
    some (match postValidateApplyFunc with
          | none => coerceInt floatParse d
          | some f => f (coerceInt floatParse d))
  | _ => none

/-- `inputFloat` (lines 359-406), modelled exactly like `inputInt` but
with the `float(result)` coercion. -/
def inputFloat (floatParse : String → Option ℚ)
    (validationFunc : String → Except String String)
    (prompt : String) (default : Option String) (timeout : Option ℚ)
    (limit : Option ℤ) (applyFunc : Option (String → Except String String))
    (postValidateApplyFunc : Option (NumOrStr → NumOrStr))
    (startTime : ℚ) (inputs : List (String × ℚ)) : Option NumOrStr :=
  match (genericInputLoop
      ⟨prompt, default, timeout, limit, applyFunc, validationFunc, none⟩
      startTime inputs 0).1 with
  | GIResult.ok s =>
    some (match postValidateApplyFunc with
          | none => coerceFloat floatParse s
          | some f => f (coerceFloat floatParse s))
  | GIResult.defaulted d =>
    some (match postValidateApplyFunc with
          | none => coerceFloat floatParse d
          | some f => f (coerceFloat floatParse d))
  | _ => none

/-- Whatever the remaining input, each loop iteration starts by writing
the prompt: the event trace always begins with a prompt event. -/
theorem genericInputLoop_starts_with_prompt (cfg : Config) (startTime : ℚ)
    (inputs : List (String × ℚ)) (tries : ℤ) :
    ∃ tl, (genericInputLoop cfg startTime inputs tries).2.1 =
      OutEvent.promptEv cfg.prompt :: tl := by
  cases inputs with
  | nil => exact ⟨[], rfl⟩
  | cons p rest =>
    obtain ⟨rawLine, now⟩ := p
    unfold genericInputLoop
    repeat' split
    all_goals exact ⟨_, rfl⟩

/-- C1: with a timeout `T` configured, when the validator accepts the
input but the wall-clock time at the post-validation check strictly
exceeds `startTime + T`, the loop does not return the valid value: it
returns the configured default when one is set and otherwise raises
`TimeoutException`. -/
theorem C1_timeout_overrides_late_valid (cfg : Config) (startTime now T : ℚ)
    (rawLine preVal canonical : String) (rest : List (String × ℚ)) (tries : ℤ)
    (hT : cfg.timeout = some T)
    (hpre : applyOpt cfg.applyFunc rawLine = Except.ok preVal)
    (hval : cfg.validationFunc preVal = Except.ok canonical)
    (hlate : startTime + T < now) :
    genericInputLoop cfg startTime ((rawLine, now) :: rest) tries =
      ((match cfg.default with
        | some d => GIResult.defaulted d
        | none => GIResult.timeoutErr),
       [OutEvent.promptEv cfg.prompt], tries + 1) := by
  have hto : timedOut startTime cfg.timeout now = true := by
    simp [timedOut, hT, hlate]
  simp only [genericInputLoop, hpre, hval, hto, if_true]
  cases hd : cfg.default <;> simp [hd]

/-- C1 witness: a valid line arriving at elapsed time 6 with timeout 5
produces `TimeoutException`, not the valid value. -/
theorem C1_timeout_overrides_late_valid_witness :
    genericInputLoop ⟨"Enter>", none, some 5, none, none, fun s => Except.ok s, none⟩
        0 [("hello", 6)] 0 =
      (GIResult.timeoutErr, [OutEvent.promptEv "Enter>"], 1) := by
  have h := C1_timeout_overrides_late_valid
      ⟨"Enter>", none, some 5, none, none, fun s => Except.ok s, none⟩
      0 6 5 "hello" "hello" "hello" [] 0 rfl rfl rfl (by norm_num)
  simpa using h

/-- C2: on a failed attempt that hits a give-up condition with no
default, the raised error matches the triggering condition — the timeout
check (strict `startTime + T < now`) is evaluated first and wins over
the limit check (`limit ≤ tries`) when both hold; elapsed time exactly
equal to the timeout does not trigger the timeout branch. -/
theorem C2_giveup_error_selection :
    (∀ (startTime T now : ℚ) (tries : ℤ) (limit : Option ℤ),
        startTime + T < now →
        checkLimitAndTimeout startTime (some T) tries limit now =
          some GiveUpExc.timeoutExc)
    ∧ (∀ (startTime : ℚ) (timeout : Option ℚ) (now : ℚ) (tries L : ℤ),
        timedOut startTime timeout now = false → L ≤ tries →
        checkLimitAndTimeout startTime timeout tries (some L) now =
          some GiveUpExc.retryLimitExc)
    ∧ (∀ (startTime T : ℚ) (tries L : ℤ),
        checkLimitAndTimeout startTime (some T) tries (some L) (startTime + T) =
          if L ≤ tries then some GiveUpExc.retryLimitExc else none)
    ∧ (∀ (cfg : Config) (startTime now : ℚ) (rawLine preVal excMsg : String)
        (rest : List (String × ℚ)) (tries : ℤ) (e : GiveUpExc),
        cfg.default = none →
        applyOpt cfg.applyFunc rawLine = Except.ok preVal →
        cfg.validationFunc preVal = Except.error excMsg →
        checkLimitAndTimeout startTime cfg.timeout (tries + 1) cfg.limit now = some e →
        genericInputLoop cfg startTime ((rawLine, now) :: rest) tries =
          ((match e with
            | GiveUpExc.timeoutExc => GIResult.timeoutErr
            | GiveUpExc.retryLimitExc => GIResult.retryLimitErr),
           [OutEvent.promptEv cfg.prompt, OutEvent.messageEv excMsg], tries + 1)) := by
  refine ⟨?_, ?_, ?_, ?_⟩
  · intro startTime T now tries limit h
    simp [checkLimitAndTimeout, timedOut, h]
  · intro startTime timeout now tries L hto hL
    simp [checkLimitAndTimeout, hto, limitHit, hL]
  · intro startTime T tries L
    simp [checkLimitAndTimeout, timedOut, limitHit]
  · intro cfg startTime now rawLine preVal excMsg rest tries e hdef hpre hval hchk
    simp only [genericInputLoop, hpre, hval, hchk, hdef]

/-- C2 witness: concrete instances of the four conjuncts — timeout wins
when both conditions hold, limit fires when the timeout has not elapsed,
elapsed time exactly equal to the timeout does not trigger it, and a
failing attempt at the limit with no default raises
`RetryLimitException`. -/
theorem C2_giveup_error_selection_witness :
    checkLimitAndTimeout 0 (some 5) 3 (some 3) 6 = some GiveUpExc.timeoutExc ∧
    checkLimitAndTimeout 0 (some 5) 3 (some 3) 4 = some GiveUpExc.retryLimitExc ∧
    checkLimitAndTimeout 0 (some 5) 2 (some 3) 5 = none ∧
    genericInputLoop ⟨"Enter>", none, none, some 1, none, rejectBlank, none⟩
        0 [("", 1)] 0 =
      (GIResult.retryLimitErr,
       [OutEvent.promptEv "Enter>", OutEvent.messageEv "Blank values are not allowed."],
       1) := by
  refine ⟨?_, ?_, ?_, ?_⟩
  · exact C2_giveup_error_selection.1 0 5 6 3 (some 3) (by norm_num)
  · exact C2_giveup_error_selection.2.1 0 (some 5) 4 3 3
      (by simp [timedOut]; norm_num) (by norm_num)
  · have h := C2_giveup_error_selection.2.2.1 0 5 2 3
    norm_num at h
    exact h
  · have h := C2_giveup_error_selection.2.2.2
      ⟨"Enter>", none, none, some 1, none, rejectBlank, none⟩
      0 1 "" "" "Blank values are not allowed." [] 0 GiveUpExc.retryLimitExc
      rfl rfl (by simp [rejectBlank])
      (by simp [checkLimitAndTimeout, timedOut, limitHit])
    simpa using h

/-- C3: with a default configured, either give-up condition (failed
attempt hitting the limit/timeout check, or valid-but-late input) makes
the loop return the default unchanged — these equalities hold for every
`postValidateApplyFunc`, and any `defaulted` outcome of the loop carries
exactly the configured default, so the post-transform is never applied
to a substituted default. -/
theorem C3_default_returned_unchanged :
    (∀ (cfg : Config) (startTime now : ℚ) (rawLine preVal excMsg d : String)
        (rest : List (String × ℚ)) (tries : ℤ) (e : GiveUpExc),
        cfg.default = some d →
        applyOpt cfg.applyFunc rawLine = Except.ok preVal →
        cfg.validationFunc preVal = Except.error excMsg →
        checkLimitAndTimeout startTime cfg.timeout (tries + 1) cfg.limit now = some e →
        genericInputLoop cfg startTime ((rawLine, now) :: rest) tries =
          (GIResult.defaulted d,
           [OutEvent.promptEv cfg.prompt, OutEvent.messageEv excMsg], tries + 1))
    ∧ (∀ (cfg : Config) (startTime now : ℚ) (rawLine preVal canonical d : String)
        (rest : List (String × ℚ)) (tries : ℤ),
        cfg.default = some d →
        applyOpt cfg.applyFunc rawLine = Except.ok preVal →
        cfg.validationFunc preVal = Except.ok canonical →
        timedOut startTime cfg.timeout now = true →
        genericInputLoop cfg startTime ((rawLine, now) :: rest) tries =
          (GIResult.defaulted d, [OutEvent.promptEv cfg.prompt], tries + 1))
    ∧ (∀ (cfg : Config) (startTime : ℚ) (inputs : List (String × ℚ)) (tries : ℤ)
        (x : String),
        (genericInputLoop cfg startTime inputs tries).1 = GIResult.defaulted x →
        cfg.default = some x) := by
  refine ⟨?_, ?_, ?_⟩
  · intro cfg startTime now rawLine preVal excMsg d rest tries e hdef hpre hval hchk
    simp only [genericInputLoop, hpre, hval, hchk, hdef]
  · intro cfg startTime now rawLine preVal canonical d rest tries hdef hpre hval hto
    simp only [genericInputLoop, hpre, hval, hto, if_true, hdef]
  · intro cfg startTime inputs
    induction inputs with
    | nil =>
      intro tries x h
      simp [genericInputLoop] at h
    | cons p rest ih =>
      obtain ⟨rawLine, now⟩ := p
      intro tries x h
      simp only [genericInputLoop] at h
      cases hpre : applyOpt cfg.applyFunc rawLine with
      | error m => simp [hpre] at h
      | ok preVal =>
        cases hval : cfg.validationFunc preVal with
        | error excMsg =>
          cases hchk : checkLimitAndTimeout startTime cfg.timeout (tries + 1)
              cfg.limit now with
          | some e =>
            cases hdef : cfg.default with
            | some d =>
              simp [hpre, hval, hchk, hdef] at h
              rw [h]
            | none =>
              cases e <;> simp [hpre, hval, hchk, hdef] at h
          | none =>
            simp only [hpre, hval, hchk] at h
            exact ih (tries + 1) x h
        | ok canonical =>
          by_cases hto : timedOut startTime cfg.timeout now
          · cases hdef : cfg.default with
            | some d =>
              simp [hpre, hval, hto, hdef] at h
              rw [h]
            | none => simp [hpre, hval, hto, hdef] at h
          · cases hpost : cfg.postValidateApplyFunc with
            | none => simp [hpre, hval, hto, hpost] at h
            | some f =>
              cases hf : f canonical with
              | ok w => simp [hpre, hval, hto, hpost, hf] at h
              | error m => simp [hpre, hval, hto, hpost, hf] at h

/-- C3 witness: with `default = "def"`, `limit = 1` and a
post-transform that appends "!", an invalid line yields the untouched
default; with `timeout = 5` a valid-but-late line also yields the
untouched default; and the invariant recovers the configured default
from the first outcome. -/
theorem C3_default_returned_unchanged_witness :
    genericInputLoop
        ⟨"Enter>", some "def", none, some 1, none, rejectBlank,
         some fun s => Except.ok (s ++ "!")⟩ 0 [("", 1)] 0 =
      (GIResult.defaulted "def",
       [OutEvent.promptEv "Enter>", OutEvent.messageEv "Blank values are not allowed."],
       1) ∧
    genericInputLoop
        ⟨"Enter>", some "def", some 5, none, none, (fun s => Except.ok s),
         some fun s => Except.ok (s ++ "!")⟩ 0 [("hello", 6)] 0 =
      (GIResult.defaulted "def", [OutEvent.promptEv "Enter>"], 1) ∧
    (Config.default
      ⟨"Enter>", some "def", none, some 1, none, rejectBlank,
       some fun s => Except.ok (s ++ "!")⟩) = some "def" := by
  refine ⟨?_, ?_, ?_⟩
  · exact C3_default_returned_unchanged.1
      ⟨"Enter>", some "def", none, some 1, none, rejectBlank,
       some fun s => Except.ok (s ++ "!")⟩
      0 1 "" "" "Blank values are not allowed." "def" [] 0 GiveUpExc.retryLimitExc
      rfl rfl (by simp [rejectBlank])
      (by simp [checkLimitAndTimeout, timedOut, limitHit])
  · exact C3_default_returned_unchanged.2.1
      ⟨"Enter>", some "def", some 5, none, none, (fun s => Except.ok s),
       some fun s => Except.ok (s ++ "!")⟩
      0 6 "hello" "hello" "hello" "def" [] 0 rfl rfl rfl
      (by simp [timedOut]; norm_num)
  · exact C3_default_returned_unchanged.2.2
      ⟨"Enter>", some "def", none, some 1, none, rejectBlank,
       some fun s => Except.ok (s ++ "!")⟩
      0 [("", 1)] 0 "def"
      (by simp [genericInputLoop, rejectBlank, applyOpt, checkLimitAndTimeout,
            timedOut, limitHit])

/-- One-step unfolding: a failed attempt that does not hit a give-up
condition prints the prompt and the failure message and loops on the
remaining input with `tries` incremented. -/
theorem loop_fail_continue (cfg : Config) (startTime now : ℚ)
    (rawLine preVal excMsg : String) (rest : List (String × ℚ)) (tries : ℤ)
    (hpre : applyOpt cfg.applyFunc rawLine = Except.ok preVal)
    (hval : cfg.validationFunc preVal = Except.error excMsg)
    (hchk : checkLimitAndTimeout startTime cfg.timeout (tries + 1)
      cfg.limit now = none) :
    genericInputLoop cfg startTime ((rawLine, now) :: rest) tries =
      ((genericInputLoop cfg startTime rest (tries + 1)).1,
       OutEvent.promptEv cfg.prompt :: OutEvent.messageEv excMsg ::
         (genericInputLoop cfg startTime rest (tries + 1)).2.1,
       (genericInputLoop cfg startTime rest (tries + 1)).2.2) := by
  simp only [genericInputLoop, hpre, hval, hchk]

/-- Helper for C4: with no timeout, limit `L`, no default, and a run of
rejected lines exactly filling the remaining attempt budget, the loop
raises `RetryLimitException` with one prompt and one failure message per
rejected line, ending with `tries = L`. -/
theorem retryLimit_exhaust_aux (cfg : Config) (startTime : ℚ) (L : ℤ)
    (hto : cfg.timeout = none) (hlim : cfg.limit = some L)
    (hdef : cfg.default = none) :
    ∀ (pre rest : List (String × ℚ)) (tries : ℤ),
      (∀ p ∈ pre, attemptRejected cfg p.1) →
      1 ≤ pre.length →
      tries + pre.length = L →
      ∃ evs, genericInputLoop cfg startTime (pre ++ rest) tries =
        (GIResult.retryLimitErr, evs, L) ∧
        promptCount evs = pre.length ∧ messageCount evs = pre.length := by
  intro pre
  induction pre with
  | nil =>
    intro rest tries _ h1 _
    simp at h1
  | cons p tl ih =>
    intro rest tries hrej _ hlen
    obtain ⟨rawLine, now⟩ := p
    obtain ⟨preVal, excMsg, hpre, hval⟩ := hrej _ (List.mem_cons_self _ _)
    cases tl with
    | nil =>
      have hfin : tries + 1 = L := by
        simp only [List.length_cons, List.length_nil] at hlen
        push_cast at hlen
        omega
      have hchk : checkLimitAndTimeout startTime cfg.timeout (tries + 1)
          cfg.limit now = some GiveUpExc.retryLimitExc := by
        simp [checkLimitAndTimeout, timedOut, hto, limitHit, hlim, hfin.ge]
      refine ⟨[OutEvent.promptEv cfg.prompt, OutEvent.messageEv excMsg], ?_,
        by simp [promptCount], by simp [messageCount]⟩
      simp only [List.cons_append, List.nil_append, genericInputLoop, hpre, hval,
        hchk, hdef]
      rw [hfin]
    | cons q tl' =>
      have hlt : ¬ (L ≤ tries + 1) := by
        simp only [List.length_cons] at hlen
        push_cast at hlen
        omega
      have hchk : checkLimitAndTimeout startTime cfg.timeout (tries + 1)
          cfg.limit now = none := by
        simp [checkLimitAndTimeout, timedOut, hto, limitHit, hlim, hlt]
      obtain ⟨evs', heq, hp, hm⟩ := ih rest (tries + 1)
        (fun p hp => hrej p (List.mem_cons_of_mem _ hp)) (by simp)
        (by simp only [List.length_cons] at hlen ⊢; push_cast at hlen ⊢; omega)
      refine ⟨OutEvent.promptEv cfg.prompt :: OutEvent.messageEv excMsg :: evs',
        ?_, ?_, ?_⟩
      · rw [List.cons_append,
          loop_fail_continue cfg startTime now rawLine preVal excMsg _ tries
            hpre hval hchk, heq]
      · simp [promptCount, hp]
      · simp [messageCount, hm]

/-- Helper for C4: with no timeout and the attempt budget not yet
exhausted through a run of rejected lines, a following line that
validates makes the loop succeed, every read (valid or not) having
incremented `tries` by exactly one. -/
theorem success_after_failures_aux (cfg : Config) (startTime : ℚ)
    (hto : cfg.timeout = none) :
    ∀ (pre : List (String × ℚ)) (rawLine preVal canonical : String) (now : ℚ)
      (rest : List (String × ℚ)) (tries : ℤ),
      (∀ p ∈ pre, attemptRejected cfg p.1) →
      (∀ L, cfg.limit = some L → tries + pre.length < L) →
      applyOpt cfg.applyFunc rawLine = Except.ok preVal →
      cfg.validationFunc preVal = Except.ok canonical →
      ∃ evs, genericInputLoop cfg startTime (pre ++ (rawLine, now) :: rest) tries =
        (successResult cfg canonical, evs, tries + pre.length + 1) ∧
        promptCount evs = pre.length + 1 ∧ messageCount evs = pre.length := by
  intro pre
  induction pre with
  | nil =>
    intro rawLine preVal canonical now rest tries _ _ hpre hval
    have htod : timedOut startTime cfg.timeout now = false := by
      simp [timedOut, hto]
    refine ⟨[OutEvent.promptEv cfg.prompt], ?_, by simp [promptCount],
      by simp [messageCount]⟩
    simp only [List.nil_append, genericInputLoop, hpre, hval, htod,
      Bool.false_eq_true, if_false, List.length_nil, Nat.cast_zero, add_zero]
    cases hp : cfg.postValidateApplyFunc with
    | none => simp [successResult, hp]
    | some f => cases hf : f canonical <;> simp [successResult, hp, hf]
  | cons p tl ih =>
    intro rawLine preVal canonical now rest tries hrej hlim hpre hval
    obtain ⟨r0, n0⟩ := p
    obtain ⟨pv0, msg0, hpre0, hval0⟩ := hrej _ (List.mem_cons_self _ _)
    have hchk : checkLimitAndTimeout startTime cfg.timeout (tries + 1)
        cfg.limit n0 = none := by
      cases hl : cfg.limit with
      | none => simp [checkLimitAndTimeout, timedOut, hto, limitHit]
      | some L =>
        have hb := hlim L hl
        have h1 : ¬ (L ≤ tries + 1) := by
          simp only [List.length_cons] at hb
          push_cast at hb
          omega
        simp [checkLimitAndTimeout, timedOut, hto, limitHit, h1]
    obtain ⟨evs', heq, hp, hm⟩ := ih rawLine preVal canonical now rest (tries + 1)
      (fun q hq => hrej q (List.mem_cons_of_mem _ hq))
      (fun L hl => by
        have hb := hlim L hl
        simp only [List.length_cons] at hb ⊢
        push_cast at hb ⊢
        omega)
      hpre hval
    refine ⟨OutEvent.promptEv cfg.prompt :: OutEvent.messageEv msg0 :: evs',
      ?_, ?_, ?_⟩
    · rw [List.cons_append,
        loop_fail_continue cfg startTime n0 r0 pv0 msg0 _ tries hpre0 hval0 hchk,
        heq]
      simp only [Prod.mk.injEq, List.length_cons, true_and]
      push_cast
      ring
    · simp [promptCount, hp]
    · simp [messageCount, hm]

/-- C4: with `limit = L ≥ 1`, no timeout and no default, `L` rejected
lines make the loop raise `RetryLimitException` after exactly `L` read
attempts — `L` prompts, no `L+1`-th prompt — and with `limit = N + 1`,
`N` rejected lines followed by a validating line make the loop succeed
on attempt `N + 1` with `tries = N + 1`, each read (valid or not)
incrementing `tries` by exactly one. -/
theorem C4_attempt_counting :
    (∀ (cfg : Config) (startTime : ℚ) (L : ℕ) (pre rest : List (String × ℚ)),
        cfg.timeout = none → cfg.limit = some (L : ℤ) → cfg.default = none →
        1 ≤ L → pre.length = L → (∀ p ∈ pre, attemptRejected cfg p.1) →
        ∃ evs, genericInputLoop cfg startTime (pre ++ rest) 0 =
          (GIResult.retryLimitErr, evs, (L : ℤ)) ∧
          promptCount evs = L ∧ messageCount evs = L)
    ∧ (∀ (cfg : Config) (startTime : ℚ) (N : ℕ) (pre : List (String × ℚ))
        (rawLine preVal canonical : String) (now : ℚ) (rest : List (String × ℚ)),
        cfg.timeout = none → cfg.limit = some ((N : ℤ) + 1) →
        pre.length = N → (∀ p ∈ pre, attemptRejected cfg p.1) →
        applyOpt cfg.applyFunc rawLine = Except.ok preVal →
        cfg.validationFunc preVal = Except.ok canonical →
        ∃ evs, genericInputLoop cfg startTime (pre ++ (rawLine, now) :: rest) 0 =
          (successResult cfg canonical, evs, (N : ℤ) + 1) ∧
          promptCount evs = N + 1 ∧ messageCount evs = N) := by
  constructor
  · intro cfg startTime L pre rest hto hlim hdef hL hlen hrej
    obtain ⟨evs, heq, hp, hm⟩ := retryLimit_exhaust_aux cfg startTime (L : ℤ)
      hto hlim hdef pre rest 0 hrej (by omega)
      (by rw [hlen]; ring)
    exact ⟨evs, heq, by rw [hp, hlen], by rw [hm, hlen]⟩
  · intro cfg startTime N pre rawLine preVal canonical now rest hto hlim hlen
        hrej hpre hval
    obtain ⟨evs, heq, hp, hm⟩ := success_after_failures_aux cfg startTime hto
      pre rawLine preVal canonical now rest 0 hrej
      (fun L hl => by
        have h2 : some L = some ((N : ℤ) + 1) := hl.symm.trans hlim
        have h3 : L = (N : ℤ) + 1 := Option.some.inj h2
        rw [h3, hlen]
        omega)
      hpre hval
    have harith : (0 : ℤ) + (pre.length : ℤ) + 1 = (N : ℤ) + 1 := by
      rw [hlen]; ring
    rw [harith] at heq
    exact ⟨evs, heq, by rw [hp, hlen], by rw [hm, hlen]⟩

/-- C4 witness: two rejected blank lines under `limit = 2` raise
`RetryLimitException` after exactly 2 prompts; one rejected blank line
then "hello" under `limit = 2` succeed on attempt 2 with `tries = 2`. -/
theorem C4_attempt_counting_witness :
    (∃ evs, genericInputLoop ⟨"Enter>", none, none, some 2, none, rejectBlank, none⟩
        0 [("", 1), ("", 2)] 0 =
      (GIResult.retryLimitErr, evs, 2) ∧ promptCount evs = 2 ∧ messageCount evs = 2) ∧
    (∃ evs, genericInputLoop ⟨"Enter>", none, none, some 2, none, rejectBlank, none⟩
        0 [("", 1), ("hello", 2)] 0 =
      (GIResult.ok "hello", evs, 2) ∧ promptCount evs = 2 ∧ messageCount evs = 1) := by
  constructor
  · have h := C4_attempt_counting.1
      ⟨"Enter>", none, none, some 2, none, rejectBlank, none⟩
      0 2 [("", 1), ("", 2)] [] rfl rfl rfl (by omega) (by simp)
      (by
        intro p hp
        simp only [List.mem_cons, List.not_mem_nil, or_false] at hp
        rcases hp with h1 | h1 <;> subst h1 <;>
          exact ⟨"", "Blank values are not allowed.", rfl, by simp [rejectBlank]⟩)
    simpa using h
  · have h := C4_attempt_counting.2
      ⟨"Enter>", none, none, some 2, none, rejectBlank, none⟩
      0 1 [("", 1)] "hello" "hello" "hello" 2 [] rfl (by norm_num) (by simp)
      (by
        intro p hp
        simp only [List.mem_cons, List.not_mem_nil, or_false] at hp
        subst hp
        exact ⟨"", "Blank values are not allowed.", rfl, by simp [rejectBlank]⟩)
      rfl (by simp [rejectBlank])
    simpa [successResult] using h

/-- C5: every failed validation attempt prints exactly one failure
message (the validator's exception message); when the attempt does not
trigger give-up exactly one re-prompt follows it, and when it does
trigger give-up the message is still printed as the last output before
the give-up outcome. -/
theorem C5_message_per_failure :
    (∀ (cfg : Config) (startTime now : ℚ) (rawLine preVal excMsg : String)
        (rest : List (String × ℚ)) (tries : ℤ),
        applyOpt cfg.applyFunc rawLine = Except.ok preVal →
        cfg.validationFunc preVal = Except.error excMsg →
        checkLimitAndTimeout startTime cfg.timeout (tries + 1) cfg.limit now = none →
        ∃ tl, (genericInputLoop cfg startTime ((rawLine, now) :: rest) tries).2.1 =
          OutEvent.promptEv cfg.prompt :: OutEvent.messageEv excMsg ::
            OutEvent.promptEv cfg.prompt :: tl)
    ∧ (∀ (cfg : Config) (startTime now : ℚ) (rawLine preVal excMsg : String)
        (rest : List (String × ℚ)) (tries : ℤ) (e : GiveUpExc),
        applyOpt cfg.applyFunc rawLine = Except.ok preVal →
        cfg.validationFunc preVal = Except.error excMsg →
        checkLimitAndTimeout startTime cfg.timeout (tries + 1) cfg.limit now = some e →
        (genericInputLoop cfg startTime ((rawLine, now) :: rest) tries).2.1 =
          [OutEvent.promptEv cfg.prompt, OutEvent.messageEv excMsg]) := by
  constructor
  · intro cfg startTime now rawLine preVal excMsg rest tries hpre hval hchk
    obtain ⟨tl, htl⟩ :=
      genericInputLoop_starts_with_prompt cfg startTime rest (tries + 1)
    refine ⟨tl, ?_⟩
    rw [loop_fail_continue cfg startTime now rawLine preVal excMsg rest tries
      hpre hval hchk]
    simp [htl]
  · intro cfg startTime now rawLine preVal excMsg rest tries e hpre hval hchk
    cases hd : cfg.default with
    | some d => simp [genericInputLoop, hpre, hval, hchk, hd]
    | none => cases e <;> simp [genericInputLoop, hpre, hval, hchk, hd]

/-- C5 witness: a failed blank line with no give-up emits one message
and is followed by a re-prompt; a failed blank line at `limit = 1`
still emits the message before the give-up outcome. -/
theorem C5_message_per_failure_witness :
    (∃ tl, (genericInputLoop ⟨"Enter>", none, none, none, none, rejectBlank, none⟩
        0 [("", 1), ("hello", 2)] 0).2.1 =
      OutEvent.promptEv "Enter>" :: OutEvent.messageEv "Blank values are not allowed." ::
        OutEvent.promptEv "Enter>" :: tl) ∧
    (genericInputLoop ⟨"Enter>", none, none, some 1, none, rejectBlank, none⟩
        0 [("", 1)] 0).2.1 =
      [OutEvent.promptEv "Enter>", OutEvent.messageEv "Blank values are not allowed."] := by
  constructor
  · exact C5_message_per_failure.1
      ⟨"Enter>", none, none, none, none, rejectBlank, none⟩
      0 1 "" "" "Blank values are not allowed." [("hello", 2)] 0
      rfl (by simp [rejectBlank])
      (by simp [checkLimitAndTimeout, timedOut, limitHit])
  · exact C5_message_per_failure.2
      ⟨"Enter>", none, none, some 1, none, rejectBlank, none⟩
      0 1 "" "" "Blank values are not allowed." [] 0 GiveUpExc.retryLimitExc
      rfl (by simp [rejectBlank])
      (by simp [checkLimitAndTimeout, timedOut, limitHit])

/-- C6: a successful attempt inside the retry/timeout budget returns
`postValidateApplyFunc(validatedValue)` when the post-transform is set,
and otherwise exactly the validator's output (the canonical value the
validator returned is adopted, not the raw line). -/
theorem C6_success_return_value :
    (∀ (cfg : Config) (startTime now : ℚ) (rawLine preVal canonical w : String)
        (f : String → Except String String) (rest : List (String × ℚ)) (tries : ℤ),
        cfg.postValidateApplyFunc = some f →
        applyOpt cfg.applyFunc rawLine = Except.ok preVal →
        cfg.validationFunc preVal = Except.ok canonical →
        timedOut startTime cfg.timeout now = false →
        f canonical = Except.ok w →
        genericInputLoop cfg startTime ((rawLine, now) :: rest) tries =
          (GIResult.ok w, [OutEvent.promptEv cfg.prompt], tries + 1))
    ∧ (∀ (cfg : Config) (startTime now : ℚ) (rawLine preVal canonical : String)
        (rest : List (String × ℚ)) (tries : ℤ),
        cfg.postValidateApplyFunc = none →
        applyOpt cfg.applyFunc rawLine = Except.ok preVal →
        cfg.validationFunc preVal = Except.ok canonical →
        timedOut startTime cfg.timeout now = false →
        genericInputLoop cfg startTime ((rawLine, now) :: rest) tries =
          (GIResult.ok canonical, [OutEvent.promptEv cfg.prompt], tries + 1)) := by
  constructor
  · intro cfg startTime now rawLine preVal canonical w f rest tries
      hpost hpre hval hto hf
    simp [genericInputLoop, hpre, hval, hto, hpost, hf]
  · intro cfg startTime now rawLine preVal canonical rest tries hpost hpre hval hto
    simp [genericInputLoop, hpre, hval, hto, hpost]

/-- C6 witness: with a post-transform appending "!" the loop returns the
transformed value; without one it returns exactly the canonical value
produced by the validator (here the validator maps any line to
"canon"). -/
theorem C6_success_return_value_witness :
    genericInputLoop
        ⟨"Enter>", none, none, none, none, rejectBlank,
         some fun s => Except.ok (s ++ "!")⟩ 0 [("cat", 1)] 0 =
      (GIResult.ok "cat!", [OutEvent.promptEv "Enter>"], 1) ∧
    genericInputLoop
        ⟨"Enter>", none, none, none, none, (fun _ => Except.ok "canon"), none⟩
        0 [("raw", 1)] 0 =
      (GIResult.ok "canon", [OutEvent.promptEv "Enter>"], 1) := by
  constructor
  · exact C6_success_return_value.1
      ⟨"Enter>", none, none, none, none, rejectBlank,
       some fun s => Except.ok (s ++ "!")⟩
      0 1 "cat" "cat" "cat" "cat!" (fun s => Except.ok (s ++ "!")) [] 0
      rfl rfl (by simp [rejectBlank]) (by simp [timedOut]) rfl
  · exact C6_success_return_value.2
      ⟨"Enter>", none, none, none, none, (fun _ => Except.ok "canon"), none⟩
      0 1 "raw" "raw" "canon" [] 0 rfl rfl rfl (by simp [timedOut])

/-- C9: with both `timeout` and `limit` absent the give-up check always
reports nothing, and the loop can never produce a give-up outcome: it
never returns the substituted default and never raises
`TimeoutException` or `RetryLimitException`, whatever the input. -/
theorem C9_no_budget_no_giveup :
    (∀ (startTime : ℚ) (tries : ℤ) (now : ℚ),
        checkLimitAndTimeout startTime none tries none now = none)
    ∧ (∀ (cfg : Config) (startTime : ℚ) (inputs : List (String × ℚ)) (tries : ℤ),
        cfg.timeout = none → cfg.limit = none →
        (genericInputLoop cfg startTime inputs tries).1 ≠ GIResult.timeoutErr ∧
        (genericInputLoop cfg startTime inputs tries).1 ≠ GIResult.retryLimitErr ∧
        ∀ d, (genericInputLoop cfg startTime inputs tries).1 ≠ GIResult.defaulted d) := by
  constructor
  · intro startTime tries now
    simp [checkLimitAndTimeout, timedOut, limitHit]
  · intro cfg startTime inputs
    induction inputs with
    | nil =>
      intro tries hto hlim
      simp [genericInputLoop]
    | cons p rest ih =>
      obtain ⟨rawLine, now⟩ := p
      intro tries hto hlim
      have hchk0 : checkLimitAndTimeout startTime cfg.timeout (tries + 1)
          cfg.limit now = none := by
        simp [checkLimitAndTimeout, timedOut, limitHit, hto, hlim]
      cases hpre : applyOpt cfg.applyFunc rawLine with
      | error m => simp [genericInputLoop, hpre]
      | ok preVal =>
        cases hval : cfg.validationFunc preVal with
        | error excMsg =>
          rw [loop_fail_continue cfg startTime now rawLine preVal excMsg rest tries
            hpre hval hchk0]
          exact ih (tries + 1) hto hlim
        | ok canonical =>
          have htod : timedOut startTime cfg.timeout now = false := by
            simp [timedOut, hto]
          cases hpost : cfg.postValidateApplyFunc with
          | none => simp [genericInputLoop, hpre, hval, htod, hpost]
          | some f =>
            cases hf : f canonical <;>
              simp [genericInputLoop, hpre, hval, htod, hpost, hf]

/-- C9 witness: the check with both budgets absent reports nothing at a
concrete state, and a call with `timeout = limit = None` (even with a
default configured and a failing line) yields none of the three give-up
outcomes. -/
theorem C9_no_budget_no_giveup_witness :
    checkLimitAndTimeout 0 none 5 none 3 = none ∧
    ((genericInputLoop ⟨"Enter>", some "def", none, none, none, rejectBlank, none⟩
        0 [("", 1)] 0).1 ≠ GIResult.timeoutErr ∧
     (genericInputLoop ⟨"Enter>", some "def", none, none, none, rejectBlank, none⟩
        0 [("", 1)] 0).1 ≠ GIResult.retryLimitErr ∧
     ∀ d, (genericInputLoop ⟨"Enter>", some "def", none, none, none, rejectBlank, none⟩
        0 [("", 1)] 0).1 ≠ GIResult.defaulted d) := by
  constructor
  · exact C9_no_budget_no_giveup.1 0 5 3
  · exact C9_no_budget_no_giveup.2
      ⟨"Enter>", some "def", none, none, none, rejectBlank, none⟩
      0 [("", 1)] 0 rfl rfl

/-- C10: only the validator's exceptions are caught and turned into a
retry — an exception from the pre-transform (`applyFunc`, outside the
`try`) or from the post-transform (`postValidateApplyFunc`, after the
`try`) propagates uncaught on any attempt, while a validator exception
short of give-up makes the loop continue with the next line. -/
theorem C10_only_validator_exceptions_caught :
    (∀ (cfg : Config) (startTime now : ℚ) (rawLine m : String)
        (f : String → Except String String) (rest : List (String × ℚ)) (tries : ℤ),
        cfg.applyFunc = some f → f rawLine = Except.error m →
        genericInputLoop cfg startTime ((rawLine, now) :: rest) tries =
          (GIResult.uncaughtErr m, [OutEvent.promptEv cfg.prompt], tries + 1))
    ∧ (∀ (cfg : Config) (startTime now : ℚ) (rawLine preVal canonical m : String)
        (g : String → Except String String) (rest : List (String × ℚ)) (tries : ℤ),
        cfg.postValidateApplyFunc = some g →
        applyOpt cfg.applyFunc rawLine = Except.ok preVal →
        cfg.validationFunc preVal = Except.ok canonical →
        timedOut startTime cfg.timeout now = false →
        g canonical = Except.error m →
        genericInputLoop cfg startTime ((rawLine, now) :: rest) tries =
          (GIResult.uncaughtErr m, [OutEvent.promptEv cfg.prompt], tries + 1))
    ∧ (∀ (cfg : Config) (startTime now : ℚ) (rawLine preVal excMsg : String)
        (rest : List (String × ℚ)) (tries : ℤ),
        applyOpt cfg.applyFunc rawLine = Except.ok preVal →
        cfg.validationFunc preVal = Except.error excMsg →
        checkLimitAndTimeout startTime cfg.timeout (tries + 1) cfg.limit now = none →
        (genericInputLoop cfg startTime ((rawLine, now) :: rest) tries).1 =
          (genericInputLoop cfg startTime rest (tries + 1)).1) := by
  refine ⟨?_, ?_, ?_⟩
  · intro cfg startTime now rawLine m f rest tries ha hf
    simp [genericInputLoop, applyOpt, ha, hf]
  · intro cfg startTime now rawLine preVal canonical m g rest tries
      hpost hpre hval hto hg
    simp [genericInputLoop, hpre, hval, hto, hpost, hg]
  · intro cfg startTime now rawLine preVal excMsg rest tries hpre hval hchk
    rw [loop_fail_continue cfg startTime now rawLine preVal excMsg rest tries
      hpre hval hchk]

/-- C10 witness: a raising pre-transform propagates on the first
attempt; a raising post-transform propagates after a successful
validation; a validator exception short of give-up makes the loop retry
and succeed on the next line. -/
theorem C10_only_validator_exceptions_caught_witness :
    genericInputLoop
        ⟨"Enter>", none, none, none, some fun _ => Except.error "apply boom",
         rejectBlank, none⟩ 0 [("x", 1)] 0 =
      (GIResult.uncaughtErr "apply boom", [OutEvent.promptEv "Enter>"], 1) ∧
    genericInputLoop
        ⟨"Enter>", none, none, none, none, rejectBlank,
         some fun _ => Except.error "post boom"⟩ 0 [("x", 1)] 0 =
      (GIResult.uncaughtErr "post boom", [OutEvent.promptEv "Enter>"], 1) ∧
    (genericInputLoop ⟨"Enter>", none, none, none, none, rejectBlank, none⟩
        0 [("", 1), ("hello", 2)] 0).1 =
      (genericInputLoop ⟨"Enter>", none, none, none, none, rejectBlank, none⟩
        0 [("hello", 2)] 1).1 := by
  refine ⟨?_, ?_, ?_⟩
  · exact C10_only_validator_exceptions_caught.1
      ⟨"Enter>", none, none, none, some fun _ => Except.error "apply boom",
       rejectBlank, none⟩
      0 1 "x" "apply boom" (fun _ => Except.error "apply boom") [] 0 rfl rfl
  · exact C10_only_validator_exceptions_caught.2.1
      ⟨"Enter>", none, none, none, none, rejectBlank,
       some fun _ => Except.error "post boom"⟩
      0 1 "x" "x" "x" "post boom" (fun _ => Except.error "post boom") [] 0
      rfl rfl (by simp [rejectBlank]) (by simp [timedOut]) rfl
  · exact C10_only_validator_exceptions_caught.2.2
      ⟨"Enter>", none, none, none, none, rejectBlank, none⟩
      0 1 "" "" "Blank values are not allowed." [("hello", 2)] 0
      rfl (by simp [rejectBlank])
      (by simp [checkLimitAndTimeout, timedOut, limitHit])

/-- C7: the parameter check passes exactly when all seven argument
types are valid; when it fails, `_genericInput` raises
`PyInputPlusException` before the loop begins — no prompt is emitted,
no line is read (`tries = 0`) — so any invalid configuration (prompt
not a string, default neither string nor None, non-numeric timeout,
non-integer limit, non-callable hooks) is fatal and never retried. -/
theorem C7_config_error_before_loop :
    (∀ a : ArgTypes, paramCheck a = none ↔ validArgTypes a = true)
    ∧ (∀ (a : ArgTypes) (cfg : Config) (startTime : ℚ)
        (inputs : List (String × ℚ)) (m : String),
        paramCheck a = some m →
        genericInput a cfg startTime inputs = (GIResult.configErr m, [], 0))
    ∧ (∀ (a : ArgTypes) (cfg : Config) (startTime : ℚ)
        (inputs : List (String × ℚ)),
        validArgTypes a = false →
        ∃ m, genericInput a cfg startTime inputs = (GIResult.configErr m, [], 0)) := by
  have hiff : ∀ a : ArgTypes, paramCheck a = none ↔ validArgTypes a = true := by
    intro a
    obtain ⟨p, d, t, l, v, ap, po⟩ := a
    simp only [paramCheck, validArgTypes]
    by_cases h1 : p == PyTy.pStr
    · by_cases h2 : (d == PyTy.pStr || d == PyTy.pNone)
      · by_cases h3 : (t == PyTy.pInt || t == PyTy.pFloat || t == PyTy.pNone)
        · by_cases h4 : (l == PyTy.pInt || l == PyTy.pNone)
          · by_cases h5 : isFuncLike v
            · by_cases h6 : (isFuncLike ap || ap == PyTy.pNone)
              · by_cases h7 : (isFuncLike po || po == PyTy.pNone)
                · simp [h1, h2, h3, h4, h5, h6, h7]
                · simp [h1, h2, h3, h4, h5, h6, h7]
              · simp [h1, h2, h3, h4, h5, h6]
            · simp [h1, h2, h3, h4, h5]
          · simp [h1, h2, h3, h4]
        · simp [h1, h2, h3]
      · simp [h1, h2]
    · simp [h1]
  have hrun : ∀ (a : ArgTypes) (cfg : Config) (startTime : ℚ)
      (inputs : List (String × ℚ)) (m : String),
      paramCheck a = some m →
      genericInput a cfg startTime inputs = (GIResult.configErr m, [], 0) := by
    intro a cfg startTime inputs m h
    simp [genericInput, h]
  refine ⟨hiff, hrun, ?_⟩
  intro a cfg startTime inputs hv
  cases hpc : paramCheck a with
  | none =>
    have hva := (hiff a).mp hpc
    rw [hv] at hva
    exact absurd hva (by simp)
  | some m => exact ⟨m, hrun a cfg startTime inputs m hpc⟩

/-- C7 witness: a fully valid argument tuple passes the check; an
integer prompt makes `_genericInput` fail with the configuration error
before emitting any output or reading any line; a non-callable
validator likewise produces an immediate configuration error. -/
theorem C7_config_error_before_loop_witness :
    (paramCheck ⟨PyTy.pStr, PyTy.pNone, PyTy.pNone, PyTy.pNone, PyTy.pFunc,
        PyTy.pNone, PyTy.pNone⟩ = none ↔
      validArgTypes ⟨PyTy.pStr, PyTy.pNone, PyTy.pNone, PyTy.pNone, PyTy.pFunc,
        PyTy.pNone, PyTy.pNone⟩ = true) ∧
    genericInput ⟨PyTy.pInt, PyTy.pNone, PyTy.pNone, PyTy.pNone, PyTy.pFunc,
        PyTy.pNone, PyTy.pNone⟩
      ⟨"Enter>", none, none, none, none, rejectBlank, none⟩ 0 [("x", 1)] =
      (GIResult.configErr "prompt argument must be a str", [], 0) ∧
    (∃ m, genericInput ⟨PyTy.pStr, PyTy.pNone, PyTy.pNone, PyTy.pNone, PyTy.pStr,
        PyTy.pNone, PyTy.pNone⟩
      ⟨"Enter>", none, none, none, none, rejectBlank, none⟩ 0 [("x", 1)] =
      (GIResult.configErr m, [], 0)) := by
  refine ⟨?_, ?_, ?_⟩
  · exact C7_config_error_before_loop.1
      ⟨PyTy.pStr, PyTy.pNone, PyTy.pNone, PyTy.pNone, PyTy.pFunc,
       PyTy.pNone, PyTy.pNone⟩
  · exact C7_config_error_before_loop.2.1
      ⟨PyTy.pInt, PyTy.pNone, PyTy.pNone, PyTy.pNone, PyTy.pFunc,
       PyTy.pNone, PyTy.pNone⟩
      ⟨"Enter>", none, none, none, none, rejectBlank, none⟩ 0 [("x", 1)]
      "prompt argument must be a str" rfl
  · exact C7_config_error_before_loop.2.2
      ⟨PyTy.pStr, PyTy.pNone, PyTy.pNone, PyTy.pNone, PyTy.pStr,
       PyTy.pNone, PyTy.pNone⟩
      ⟨"Enter>", none, none, none, none, rejectBlank, none⟩ 0 [("x", 1)] rfl

/-- C8: the `inputInt` / `inputFloat` wrappers do not hand a give-up
default back unchanged — when the core loop returns the substituted
default and it parses as a number, the wrapper coerces it
(`int(float(result))`, resp. `float(result)`) and then applies
`postValidateApplyFunc` unconditionally, so the caller receives the
transformed coerced value in place of the configured default. -/
theorem C8_wrappers_transform_default :
    (∀ (floatParse : String → Option ℚ)
        (validationFunc : String → Except String String)
        (prompt d : String) (timeout : Option ℚ) (limit : Option ℤ)
        (applyFunc : Option (String → Except String String))
        (f : NumOrStr → NumOrStr) (startTime : ℚ)
        (inputs : List (String × ℚ)) (q : ℚ),
        (genericInputLoop
            ⟨prompt, some d, timeout, limit, applyFunc, validationFunc, none⟩
            startTime inputs 0).1 = GIResult.defaulted d →
        floatParse d = some q →
        inputInt floatParse validationFunc prompt (some d) timeout limit
            applyFunc (some f) startTime inputs =
          some (f (NumOrStr.intVal (pyIntOfRat q))))
    ∧ (∀ (floatParse : String → Option ℚ)
        (validationFunc : String → Except String String)
        (prompt d : String) (timeout : Option ℚ) (limit : Option ℤ)
        (applyFunc : Option (String → Except String String))
        (f : NumOrStr → NumOrStr) (startTime : ℚ)
        (inputs : List (String × ℚ)) (q : ℚ),
        (genericInputLoop
            ⟨prompt, some d, timeout, limit, applyFunc, validationFunc, none⟩
            startTime inputs 0).1 = GIResult.defaulted d →
        floatParse d = some q →
        inputFloat floatParse validationFunc prompt (some d) timeout limit
            applyFunc (some f) startTime inputs =
          some (f (NumOrStr.floatVal q))) := by
  constructor
  · intro floatParse validationFunc prompt d timeout limit applyFunc f
      startTime inputs q hloop hparse
    simp [inputInt, hloop, coerceInt, hparse]
  · intro floatParse validationFunc prompt d timeout limit applyFunc f
      startTime inputs q hloop hparse
    simp [inputFloat, hloop, coerceFloat, hparse]

/-- C8 witness: with `default = "3.5"`, `limit = 1` and a failing line,
`inputInt` returns the int 3 (truncated coercion of the default) and
`inputFloat` returns the float 3.5 — neither returns the default string
itself, and the identity post-transform is applied to the coerced
value. -/
theorem C8_wrappers_transform_default_witness :
    inputInt (fun s => if s = "3.5" then some ((7 : ℚ)/2) else none) rejectBlank
        "N>" (some "3.5") none (some 1) none (some fun v => v) 0 [("", 1)] =
      some (NumOrStr.intVal 3) ∧
    inputFloat (fun s => if s = "3.5" then some ((7 : ℚ)/2) else none) rejectBlank
        "N>" (some "3.5") none (some 1) none (some fun v => v) 0 [("", 1)] =
      some (NumOrStr.floatVal ((7 : ℚ)/2)) := by
  constructor
  · have h := C8_wrappers_transform_default.1
      (fun s => if s = "3.5" then some ((7 : ℚ)/2) else none) rejectBlank
      "N>" "3.5" none (some 1) none (fun v => v) 0 [("", 1)] ((7 : ℚ)/2)
      (by simp [genericInputLoop, applyOpt, rejectBlank, checkLimitAndTimeout,
        timedOut, limitHit])
      (by simp)
    rw [h]
    norm_num [pyIntOfRat]
  · have h := C8_wrappers_transform_default.2
      (fun s => if s = "3.5" then some ((7 : ℚ)/2) else none) rejectBlank
      "N>" "3.5" none (some 1) none (fun v => v) 0 [("", 1)] ((7 : ℚ)/2)
      (by simp [genericInputLoop, applyOpt, rejectBlank, checkLimitAndTimeout,
        timedOut, limitHit])
      (by simp)
    rw [h]

end PyInputPlus
